import Mathlib

/-
  Verification development for the github-activity repository.
  The definitions below are shallow embeddings of the TypeScript sources:
  src/github-client.ts (GitHubClient.paginateSearch, fetchPullRequests,
  testConnection), src/tracker.ts (GitHubActivityTracker.fetchAll) and
  src/storage.ts (JsonStorage, SqliteStorage).  JavaScript Date values are
  modeled as milliseconds since the Unix epoch (Int); ISO timestamp strings
  stored in records stay String.
-/

set_option linter.unusedVariables false
set_option maxRecDepth 100000

namespace GithubActivity

/-- Milliseconds in one day, the 24 * 60 * 60 * 1000 of the source. -/
def msPerDay : Int := 86400000

/-- The fixed epoch floor: new Date ("2008-01-01") as milliseconds since the
Unix epoch (GitHub founded in 2008). -/
def oldestDate : Int := 1199145600000

/-- Midnight UTC of the calendar day of t.  This models the effective cutoff
of the date filter built from currentDate.toISOString().split ("T")[0]:
the query sortField:<YYYY-MM-DD keeps items strictly before that midnight. -/
def dateOnly (t : Int) : Int := msPerDay * (t.ediv msPerDay)

/-- A raw search item as consumed by the modeled code paths.  sortDate models
new Date (item[sort field timestamp]).getTime () for the sort field of the
current run; repository_url models item.repository_url.  Fields of
GitHubSearchItem that no modeled path reads are omitted. -/
structure SearchItem where
  id : Nat
  number : Nat
  repository_url : String
  sortDate : Int
deriving DecidableEq

/-- Response of the search endpoint: a page of items together with the
incomplete_results flag, or an exception carrying an HTTP status code. -/
inductive SearchResp where
  | ok (items : List SearchItem) (incomplete_results : Bool)
  | err (status : Nat)
deriving DecidableEq

/-- A search endpooint behavior: the dateOnly cutoff of the window query and
the page number determine the response.  This models
octokit.search.issuesAndPullRequests for a fixed baseQuery and sortField. -/
def Endpoint : Type := Int → Nat → SearchResp

/-- Track oldest date across the items of a page: for each item, if the item
date is strictly below currentDate then currentDate becomes the item date. -/
def trackOldest (cd : Int) (items : List SearchItem) : Int :=
  items.foldl (fun c it => if it.sortDate < c then it.sortDate else c) cd

/-- Result of the inner paging loop of paginateSearch: the accumulated
batchResults, the updated currentDate, the hasMore flag as left by the loop,
a non-422 status that was re-thrown (if any), and the instrumented lengths
of every ok page response received. -/
structure InnerOut where
  batch : List SearchItem
  cd : Int
  hasMore : Bool
  thrown : Option Nat
  pageCounts : List Nat
deriving DecidableEq

/-- The inner while (page <= maxPages) loop of paginateSearch.  pagesLeft
counts the remaining pages (10 at entry, matching maxPages); cutoff is fixed
for the whole window since the query string is built once per window.
Order of the checks follows the source: empty page (hasMore := false),
incomplete results (warn and break, items dropped), push items, track the
oldest date, short page (hasMore := false).  A 422 error shrinks currentDate
by one day and breaks; any other error is re-thrown. -/
def innerLoop (ep : Endpoint) (cutoff : Int) :
    Nat → Nat → List SearchItem → Int → List Nat → InnerOut
  | 0, _, acc, cd, pcs => ⟨acc, cd, true, none, pcs⟩
  | pl + 1, page, acc, cd, pcs =>
    match ep cutoff page with
    | .err s =>
        if s = 422 then ⟨acc, cd - msPerDay, true, none, pcs⟩
        else ⟨acc, cd, true, some s, pcs⟩
    | .ok items incomplete_results =>
        let pcs' := pcs ++ [items.length]
        if items.isEmpty then ⟨acc, cd, false, none, pcs'⟩
        else if incomplete_results then ⟨acc, cd, true, none, pcs'⟩
        else
          let acc' := acc ++ items
          let cd' := trackOldest cd items
          if items.length < 100 then ⟨acc', cd', false, none, pcs'⟩
          else innerLoop ep cutoff pl (page + 1) acc' cd' pcs'

/-- How a run of the paginator ended: normal exhaustion of the generator,
an exception with the given status propagated out, or the fuel ran out
(used only to make the recursion structural; see paginateSearch_terminates). -/
inductive PagOutcome where
  | done
  | raised (status : Nat)
  | outOfFuel
deriving DecidableEq

/-- Instrumented result of a paginateSearch run: the batches yielded to the
consumer, the raw batchResults of every outer iteration (also empty ones,
which are not yielded), the lengths of all ok page responses received, the
number of outer iterations, and the outcome. -/
structure PagResult where
  yielded : List (List SearchItem)
  rawBatches : List (List SearchItem)
  pageCounts : List Nat
  iters : Nat
  outcome : PagOutcome
deriving DecidableEq

/-- The outer while (hasMore) loop of paginateSearch.  Each iteration builds
the window query from the date-only form of currentDate, runs the inner
paging loop, yields the batch if non-empty, then clears hasMore when
currentDate reached the epoch floor or the window produced an empty batch,
and otherwise steps currentDate back by one second before continuing.
A non-422 error thrown inside the window propagates before the yield point. -/
def paginateSearch (ep : Endpoint) : Nat → Int → PagResult
  | 0, _ => ⟨[], [], [], 0, .outOfFuel⟩
  | fuel + 1, currentDate =>
    let inn := innerLoop ep (dateOnly currentDate) 10 1 [] currentDate []
    match inn.thrown with
    | some s => ⟨[], [inn.batch], inn.pageCounts, 1, .raised s⟩
    | none =>
      let yieldedNow := if inn.batch.isEmpty then [] else [inn.batch]
      let hasMore2 := inn.hasMore && !(decide (inn.cd ≤ oldestDate))
        && !inn.batch.isEmpty
      if hasMore2 then
        let r := paginateSearch ep fuel (inn.cd - 1000)
        ⟨yieldedNow ++ r.yielded, inn.batch :: r.rawBatches,
          inn.pageCounts ++ r.pageCounts, r.iters + 1, r.outcome⟩
      else ⟨yieldedNow, [inn.batch], inn.pageCounts, 1, .done⟩

/-- Fuel sufficient for any run starting at the given cursor; each continuing
outer iteration lowers the cursor by at least one second, bounded below by
the epoch floor. -/
def fuelFor (cd : Int) : Nat := (cd - oldestDate).toNat / 1000 + 2

theorem trackOldest_le (items : List SearchItem) (cd : Int) :
    trackOldest cd items ≤ cd := by
  induction items generalizing cd with
  | nil => simp [trackOldest]
  | cons it rest ih =>
      simp only [trackOldest, List.foldl_cons]
      exact le_trans (ih (if it.sortDate < cd then it.sortDate else cd))
        (by split <;> omega)

theorem innerLoop_cd_le (ep : Endpoint) (cutoff : Int) (pl page : Nat)
    (acc : List SearchItem) (cd : Int) (pcs : List Nat) :
    (innerLoop ep cutoff pl page acc cd pcs).cd ≤ cd := by
  induction pl generalizing page acc cd pcs with
  | zero => simp [innerLoop]
  | succ n ih =>
      simp only [innerLoop]
      cases ep cutoff page with
      | err s =>
          by_cases h : s = 422 <;> simp [h, msPerDay]
      | ok items incomplete_results =>
          by_cases he : items.isEmpty
          · simp [he]
          · by_cases hi : incomplete_results
            · simp [he, hi]
            · by_cases hs : items.length < 100
              · simpa [he, hi, hs] using trackOldest_le items cd
              · have h1 := ih (page + 1) (acc ++ items) (trackOldest cd items)
                  (pcs ++ [items.length])
                have h2 := trackOldest_le items cd
                simp only [he, hi, hs] at *
                simp only [Bool.false_eq_true, if_false, if_neg hs]
                exact le_trans h1 h2

theorem paginateSearch_outcome_succ (ep : Endpoint) (fuel : Nat) (cd : Int) :
    (paginateSearch ep (fuel + 1) cd).outcome =
      (match (innerLoop ep (dateOnly cd) 10 1 [] cd []).thrown with
      | some s => PagOutcome.raised s
      | none =>
        if (innerLoop ep (dateOnly cd) 10 1 [] cd []).hasMore
            && !(decide ((innerLoop ep (dateOnly cd) 10 1 [] cd []).cd
              ≤ oldestDate))
            && !(innerLoop ep (dateOnly cd) 10 1 [] cd []).batch.isEmpty then
          (paginateSearch ep fuel
            ((innerLoop ep (dateOnly cd) 10 1 [] cd []).cd - 1000)).outcome
        else PagOutcome.done) := by
  simp only [paginateSearch]
  cases (innerLoop ep (dateOnly cd) 10 1 [] cd []).thrown with
  | some s => rfl
  | none =>
      by_cases h : ((innerLoop ep (dateOnly cd) 10 1 [] cd []).hasMore
          && !(decide ((innerLoop ep (dateOnly cd) 10 1 [] cd []).cd
            ≤ oldestDate))
          && !(innerLoop ep (dateOnly cd) 10 1 [] cd []).batch.isEmpty) = true
      · simp only [h, if_true]
      · simp only [h, Bool.false_eq_true, if_false]

theorem paginateSearch_fuel_sound (ep : Endpoint) (f : Nat) :
    ∀ cd : Int, (cd - oldestDate).toNat ≤ 1000 * f →
      (paginateSearch ep (f + 1) cd).outcome ≠ .outOfFuel := by
  induction f with
  | zero =>
      intro cd hcd
      have hfloor : cd ≤ oldestDate := by omega
      rw [paginateSearch_outcome_succ]
      cases hth : (innerLoop ep (dateOnly cd) 10 1 [] cd []).thrown with
      | some s => simp
      | none =>
          have hle := innerLoop_cd_le ep (dateOnly cd) 10 1 [] cd []
          have hcd2 : (innerLoop ep (dateOnly cd) 10 1 [] cd []).cd
              ≤ oldestDate := le_trans hle hfloor
          simp [hcd2]
  | succ n ih =>
      intro cd hcd
      rw [paginateSearch_outcome_succ]
      cases hth : (innerLoop ep (dateOnly cd) 10 1 [] cd []).thrown with
      | some s => simp
      | none =>
          by_cases hcond : ((innerLoop ep (dateOnly cd) 10 1 [] cd []).hasMore
              && !(decide ((innerLoop ep (dateOnly cd) 10 1 [] cd []).cd
                ≤ oldestDate))
              && !(innerLoop ep (dateOnly cd) 10 1 [] cd []).batch.isEmpty)
              = true
          · have hfl : ¬ (innerLoop ep (dateOnly cd) 10 1 [] cd []).cd
                ≤ oldestDate := by
              rcases Bool.and_eq_true .. |>.mp
                (Bool.and_eq_true .. |>.mp hcond).1 with ⟨_, h2⟩
              simpa using h2
            have hle := innerLoop_cd_le ep (dateOnly cd) 10 1 [] cd []
            have hnext : (((innerLoop ep (dateOnly cd) 10 1 [] cd []).cd
                - 1000) - oldestDate).toNat ≤ 1000 * n := by omega
            have hrec := ih ((innerLoop ep (dateOnly cd) 10 1 [] cd []).cd
              - 1000) hnext
            simp only [hcond, if_true]
            simpa using hrec
          · simp only [Bool.not_eq_true] at hcond
            simp [hcond]

/-- A fixed mock clock value for concrete runs: 18519 days after the Unix
epoch (2020-09-14T00:00:00Z), an exact midnight so that dateOnly leaves it
unchanged. -/
def startDate : Int := 1600041600000

/-- Mocked endpoint for the 422 scenario of the spec: HTTP 422 for the first
two window attempts (the windows cut at startDate and one day earlier) and a
successful non-empty answer for any narrower window. -/
def ep422 : Endpoint := fun cutoff _page =>
  if cutoff = startDate then .err 422
  else if cutoff = startDate - msPerDay then .err 422
  else .ok [⟨1, 1, "https://api.github.com/repos/octo/repo/issues/1",
    startDate - 3 * msPerDay⟩] false

/-- The 250 synthetic items of the pagination completeness scenario: ids 1
to 250, all strictly older than startDate, spread evenly one second apart. -/
def items250 : List SearchItem :=
  (List.range 250).map (fun i =>
    ⟨i + 1, i + 1, "https://api.github.com/repos/octo/repo/issues/x",
      startDate - 1000 * ((i : Int) + 1)⟩)

/-- Mocked search endpoint holding exactly the 250 items of items250: an
honest date-filtered, 100-per-page paged view of that corpus. -/
def mock250 : Endpoint := fun cutoff page =>
  .ok (((items250.filter (fun it => it.sortDate < cutoff)).drop
    ((page - 1) * 100)).take 100) false

/-- C9: for every total behavior of the search endpoint and every starting
cursor, the paginateSearch run with the computed fuel does not run out of
fuel: the yielded sequence of batches is finite and the outer loop cannot
run forever, the cursor being driven down to the 2008-01-01 epoch floor
unless an empty window, a short or empty page, incomplete results or an
error stops it earlier. -/
theorem C9_paginateSearch_always_finite (ep : Endpoint) (cd : Int) :
    (paginateSearch ep (fuelFor cd) cd).outcome ≠ PagOutcome.outOfFuel := by
  have h : (cd - oldestDate).toNat ≤ 1000 * ((cd - oldestDate).toNat / 1000
      + 1) := by omega
  have := paginateSearch_fuel_sound ep ((cd - oldestDate).toNat / 1000 + 1)
    cd h
  simpa [fuelFor] using this

/-- C1: evaluation of paginateSearch at the mocked 422 endpoint.  Contrary
to the claim, the run does not retry the outer loop with a one-day-narrower
window: the 422 on the first page of the first window leaves that window
with an empty batch, the check batchResults.length === 0 then clears
hasMore, and the paginator completes after exactly 1 outer attempt having
yielded nothing, instead of the claimed 3 outer attempts. -/
theorem C1_ep422_stops_after_one_attempt :
    paginateSearch ep422 5 startDate =
      ⟨[], [[]], [], 1, PagOutcome.done⟩ := by decide

/-- C4 counterexample: in the 250-item run the paginator does terminate, but
not because a window returns zero items: every page response it received was
non-empty (no zero item count was ever seen) and the final window produced a
non-empty batch.  This refutes the stated termination reason of the claim at
this concrete input. -/
theorem C4_counterexample_no_zero_item_window :
    (paginateSearch mock250 5 startDate).outcome = PagOutcome.done ∧
    0 ∉ (paginateSearch mock250 5 startDate).pageCounts ∧
    (paginateSearch mock250 5 startDate).rawBatches.getLast? ≠ some [] := by
  decide

/-- C4 amended: for the mocked endpoint holding exactly 250 items older than
the start date spread evenly, the concatenated yielded batches are exactly
those 250 items, each id exactly once, with no loss and no infinite loop;
the run terminates in a single window because the last page of that window
returns fewer than 100 items (50 here), not because a window returns zero
items. -/
theorem C4_paginates_250_items_completely :
    (paginateSearch mock250 5 startDate).yielded.flatten = items250 ∧
    (items250.map (fun it => it.id)).Nodup ∧
    items250.length = 250 ∧
    (paginateSearch mock250 5 startDate).outcome = PagOutcome.done ∧
    (paginateSearch mock250 5 startDate).pageCounts = [100, 100, 50] ∧
    (paginateSearch mock250 5 startDate).iters = 1 := by
  decide

/-- Repository descriptor embedded in every record (src/types.ts).  The
source field named private is spelled isPrivate here because that word is
reserved in Lean. -/
structure Repository where
  name : String
  fullName : String
  owner : String
  url : String
  isPrivate : Bool
deriving DecidableEq

/-- PullRequest record of src/types.ts.  The open/closed state union and the
ISO-8601 timestamps are kept as String. -/
structure PullRequest where
  id : Nat
  number : Nat
  title : String
  url : String
  htmlUrl : String
  state : String
  createdAt : String
  updatedAt : String
  closedAt : Option String
  mergedAt : Option String
  repository : Repository
  author : String
  draft : Bool
  labels : List String
  assignees : List String
  reviewers : List String
  commits : Nat
  additions : Nat
  deletions : Nat
  changedFiles : Nat
deriving DecidableEq

/-- Issue record of src/types.ts. -/
structure Issue where
  id : Nat
  number : Nat
  title : String
  url : String
  htmlUrl : String
  state : String
  createdAt : String
  updatedAt : String
  closedAt : Option String
  repository : Repository
  author : String
  labels : List String
  assignees : List String
  comments : Nat
  body : Option String
deriving DecidableEq

/-- Review record of src/types.ts.  The review disposition enum is kept as
String. -/
structure Review where
  id : Nat
  pullRequestNumber : Nat
  pullRequestTitle : String
  pullRequestUrl : String
  state : String
  submittedAt : String
  repository : Repository
  author : String
  body : Option String
  htmlUrl : String
deriving DecidableEq

/-- Metadata block of ActivityData (src/types.ts). -/
structure Metadata where
  lastUpdated : String
  username : String
  totalPullRequests : Nat
  totalIssues : Nat
  totalReviews : Nat
deriving DecidableEq

/-- ActivityData, the aggregate root (src/types.ts). -/
structure ActivityData where
  pullRequests : List PullRequest
  issues : List Issue
  reviews : List Review
  metadata : Metadata
deriving DecidableEq

namespace JsonStorage

/-- Contents of the JSON storage file, as the parsed snapshot; none models a
file that does not exist.  JSON.stringify followed by JSON.parse is the
identity on the record shapes above, so the file is modeled by the snapshot
it holds. -/
def File : Type := Option ActivityData

/-- JsonStorage.save: full replace of the persisted snapshot. -/
def save (data : ActivityData) (_file : File) : File := some data

/-- JsonStorage.load: null when nothing has ever been saved, otherwise the
parsed snapshot. -/
def load (file : File) : Option ActivityData := file

/-- The items argument of one append call, tagged with the kind exactly as
the type argument of JsonStorage.append tags its items array. -/
inductive AppendItems where
  | pullRequests (items : List PullRequest)
  | issues (items : List Issue)
  | reviews (items : List Review)

/-- Merge new items with existing ones, avoiding duplicates: keep only the
items whose id is not in the Set of existing ids, and concatenate them after
the existing items (lines 92 to 105 of src/storage.ts). -/
def mergeDedup {α : Type} (getId : α → Nat) (existingItems items : List α) :
    List α :=
  existingItems ++ items.filter
    (fun it => !((existingItems.map getId).contains (getId it)))

/-- JsonStorage.append: load the current snapshot, or synthesize an empty
structure with zero counts when none exists and store the items of the
appended kind wholesale; otherwise merge with deduplication against the
existing ids, refresh lastUpdated, and recompute the count of the appended
kind.  The clock value new Date ().toISOString () is passed in as now. -/
def append (now : String) (call : AppendItems) (file : File) : File :=
  match load file with
  | none =>
      match call with
      | .pullRequests items =>
          some ⟨items, [], [], ⟨now, "", items.length, 0, 0⟩⟩
      | .issues items =>
          some ⟨[], items, [], ⟨now, "", 0, items.length, 0⟩⟩
      | .reviews items =>
          some ⟨[], [], items, ⟨now, "", 0, 0, items.length⟩⟩
  | some existingData =>
      match call with
      | .pullRequests items =>
          let merged := mergeDedup (fun pr => pr.id)
            existingData.pullRequests items
          some { existingData with
            pullRequests := merged,
            metadata := { existingData.metadata with
              lastUpdated := now, totalPullRequests := merged.length } }
      | .issues items =>
          let merged := mergeDedup (fun i => i.id) existingData.issues items
          some { existingData with
            issues := merged,
            metadata := { existingData.metadata with
              lastUpdated := now, totalIssues := merged.length } }
      | .reviews items =>
          let merged := mergeDedup (fun r => r.id) existingData.reviews items
          some { existingData with
            reviews := merged,
            metadata := { existingData.metadata with
              lastUpdated := now, totalReviews := merged.length } }

/-- A sequence of append calls applied in order, each with its clock value. -/
def runAppends (calls : List (String × AppendItems)) (file : File) : File :=
  calls.foldl (fun f c => append c.1 c.2 f) file

/-- Dedup invariant of a snapshot: every collection holds each id at most
once and every metadata total equals the length of its collection. -/
def goodSnapshot (d : ActivityData) : Prop :=
  (d.pullRequests.map (fun pr => pr.id)).Nodup ∧
  (d.issues.map (fun i => i.id)).Nodup ∧
  (d.reviews.map (fun r => r.id)).Nodup ∧
  d.metadata.totalPullRequests = d.pullRequests.length ∧
  d.metadata.totalIssues = d.issues.length ∧
  d.metadata.totalReviews = d.reviews.length

instance (d : ActivityData) : Decidable (goodSnapshot d) := by
  unfold goodSnapshot; infer_instance

/-- The invariant on a storage file: it holds vacuously before the first
write. -/
def goodFile : File → Prop
  | none => True
  | some d => goodSnapshot d

instance (f : File) : Decidable (goodFile f) := by
  cases f with
  | none => exact isTrue trivial
  | some d => exact inferInstanceAs (Decidable (goodSnapshot d))

/-- Pairwise-distinct ids within the items of one append call. -/
def callNodup : AppendItems → Prop
  | .pullRequests items => (items.map (fun pr => pr.id)).Nodup
  | .issues items => (items.map (fun i => i.id)).Nodup
  | .reviews items => (items.map (fun r => r.id)).Nodup

instance : DecidablePred callNodup := fun c => by
  cases c <;> exact inferInstanceAs (Decidable (List.Nodup _))

theorem mergeDedup_nodup {α : Type} (getId : α → Nat)
    (ex items : List α) (hex : (ex.map getId).Nodup)
    (hit : (items.map getId).Nodup) :
    ((mergeDedup getId ex items).map getId).Nodup := by
  rw [mergeDedup, List.map_append, List.nodup_append]
  refine ⟨hex, ?_, ?_⟩
  · exact ((List.filter_sublist items).map getId).nodup hit
  · intro a ha hb
    rcases List.mem_map.mp hb with ⟨it, hitmem, rfl⟩
    rcases List.mem_filter.mp hitmem with ⟨_, hkeep⟩
    simp at hkeep
    rcases List.mem_map.mp ha with ⟨w, hw, hww⟩
    exact hkeep w hw hww

theorem count_map_filter {α : Type} (getId : α → Nat) (p : α → Bool)
    (items : List α) (n : Nat)
    (h : ∀ it ∈ items, getId it = n → p it = true) :
    (((items.filter p).map getId).count n)
      = ((items.map getId).count n) := by
  induction items with
  | nil => simp
  | cons a l ih =>
      have hrest := ih (fun it hit => h it (List.mem_cons_of_mem a hit))
      by_cases hg : getId a = n
      · have hp := h a (List.mem_cons_self a l) hg
        simp [List.filter_cons, hp, List.count_cons, hg, hrest]
      · by_cases hp : p a = true
        · simp [List.filter_cons, hp, List.count_cons, hg, hrest]
        · simp only [Bool.not_eq_true] at hp
          simp [List.filter_cons, hp, List.count_cons, hg, hrest]

theorem append_good (now : String) (call : AppendItems) (file : File)
    (hf : goodFile file) (hc : callNodup call) :
    goodFile (append now call file) := by
  match file with
  | none =>
      cases call with
      | pullRequests items => simpa [append, load, goodFile, goodSnapshot]
          using hc
      | issues items => simpa [append, load, goodFile, goodSnapshot] using hc
      | reviews items => simpa [append, load, goodFile, goodSnapshot] using hc
  | some d =>
      obtain ⟨h1, h2, h3, h4, h5, h6⟩ := hf
      cases call with
      | pullRequests items =>
          exact ⟨mergeDedup_nodup _ _ _ h1 hc, h2, h3, rfl, h5, h6⟩
      | issues items =>
          exact ⟨h1, mergeDedup_nodup _ _ _ h2 hc, h3, h4, rfl, h6⟩
      | reviews items =>
          exact ⟨h1, h2, mergeDedup_nodup _ _ _ h3 hc, h4, h5, rfl⟩

theorem runAppends_good (calls : List (String × AppendItems)) :
    ∀ file : File, goodFile file → (∀ c ∈ calls, callNodup c.2) →
      goodFile (runAppends calls file) := by
  induction calls with
  | nil => intro file hf _; simpa [runAppends] using hf
  | cons c cs ih =>
      intro file hf hall
      have hstep : runAppends (c :: cs) file
          = runAppends cs (append c.1 c.2 file) := by
        simp [runAppends]
      rw [hstep]
      exact ih (append c.1 c.2 file)
        (append_good c.1 c.2 file hf (hall c (List.mem_cons_self c cs)))
        (fun x hx => hall x (List.mem_cons_of_mem c hx))

end JsonStorage

/-- A concrete repository descriptor for test fixtures. -/
def repo0 : Repository :=
  ⟨"repo", "octo/repo", "octo", "https://github.com/octo/repo", false⟩

/-- Two distinct issues sharing id 7, and two further issues with ids 8
and 9, used as concrete inputs. -/
def issue7a : Issue :=
  ⟨7, 1, "first", "u1", "h1", "open", "2020-01-01T00:00:00Z",
    "2020-01-01T00:00:00Z", none, repo0, "me", [], [], 0, none⟩

def issue7b : Issue :=
  ⟨7, 2, "second", "u2", "h2", "open", "2020-01-02T00:00:00Z",
    "2020-01-02T00:00:00Z", none, repo0, "me", [], [], 0, none⟩

def issue8 : Issue := { issue7a with id := 8, number := 3 }

def issue9 : Issue := { issue7a with id := 9, number := 4 }

/-- C2 counterexample: a single append call whose items list holds two
entries sharing id 7, applied to an empty store, leaves id 7 twice in the
persisted issues collection, so the collection does not contain each id
exactly once as the claim states for every sequence of append calls. -/
theorem C2_counterexample_dup_within_one_call :
    Option.map (fun d => ((d.issues.map (fun i => i.id)).count 7))
      (JsonStorage.runAppends
        [("t", JsonStorage.AppendItems.issues [issue7a, issue7b])] none)
      = some 2 ∧
    ¬ Option.map (fun d => ((d.issues.map (fun i => i.id)).count 7))
      (JsonStorage.runAppends
        [("t", JsonStorage.AppendItems.issues [issue7a, issue7b])] none)
      = some 1 := by
  decide

/-- C2 amended: for every sequence of append calls in which each single
call carries pairwise-distinct ids (overlap across calls still allowed),
every collection of the resulting persisted snapshot contains each id at
most once and each metadata total equals the length of its collection.
The restriction is forced because the store deduplicates only against the
already persisted ids, never within one items argument. -/
theorem C2_dedup_invariant (calls : List (String × JsonStorage.AppendItems))
    (h : ∀ c ∈ calls, JsonStorage.callNodup c.2) :
    JsonStorage.goodFile (JsonStorage.runAppends calls none) :=
  JsonStorage.runAppends_good calls none trivial h

/-- C2 witness: two overlapping append calls with ids 7 and 8 then 8 and 9,
each call itself duplicate-free, keep the dedup invariant. -/
theorem C2_dedup_invariant_witness :
    JsonStorage.goodFile (JsonStorage.runAppends
      [("t1", JsonStorage.AppendItems.issues [issue7a, issue8]),
       ("t2", JsonStorage.AppendItems.issues [issue8, issue9])] none) :=
  C2_dedup_invariant _ (by decide)

/-- C8: appending one issue to a store in which nothing has ever been saved
synthesizes a fresh snapshot holding exactly that issue, totalIssues 1, an
empty pullRequests collection and totalPullRequests 0. -/
theorem C8_append_creates_if_absent (x : Issue) (now : String) :
    JsonStorage.append now (JsonStorage.AppendItems.issues [x]) none
      = some ⟨[], [x], [], ⟨now, "", 0, 1, 0⟩⟩ := rfl

/-- C10: the JSON append deduplicates only against ids already persisted,
not within its items argument.  First part: for an id absent from the
store, its multiplicity in the resulting collection equals its multiplicity
in the items list, so a list carrying the id twice persists it twice.
Second part: against an empty store the items are stored wholesale with no
filtering at all. -/
theorem C10_append_no_dedup_within_items :
    (∀ (now : String) (d : ActivityData) (items : List Issue) (n : Nat),
      n ∉ d.issues.map (fun i => i.id) →
      Option.map (fun r => ((r.issues.map (fun i => i.id)).count n))
        (JsonStorage.append now (JsonStorage.AppendItems.issues items)
          (some d))
        = some ((items.map (fun i => i.id)).count n)) ∧
    (∀ (now : String) (items : List Issue),
      JsonStorage.append now (JsonStorage.AppendItems.issues items) none
        = some ⟨[], items, [], ⟨now, "", 0, items.length, 0⟩⟩) := by
  constructor
  · intro now d items n hn
    have hp : ∀ it ∈ items, (fun i : Issue => i.id) it = n →
        (fun it : Issue =>
          !((d.issues.map (fun i => i.id)).contains it.id)) it = true := by
      intro it hit hid
      simp only [hid]
      simpa using hn
    have key : ((JsonStorage.mergeDedup (fun i => i.id) d.issues items).map
        (fun i => i.id)).count n = ((items.map (fun i => i.id)).count n) := by
      rw [JsonStorage.mergeDedup, List.map_append, List.count_append,
        List.count_eq_zero.mpr hn,
        JsonStorage.count_map_filter (fun i => i.id) _ items n hp,
        Nat.zero_add]
    exact congrArg some key
  · intro now items
    rfl

/-- C10 witness: a single call with two entries sharing the absent id 7
against a store holding only id 8 persists id 7 twice. -/
theorem C10_append_no_dedup_within_items_witness :
    Option.map (fun r => ((r.issues.map (fun i => i.id)).count 7))
      (JsonStorage.append "t" (JsonStorage.AppendItems.issues
        [issue7a, issue7b])
        (some ⟨[], [issue8], [], ⟨"t0", "me", 0, 1, 0⟩⟩))
      = some 2 := by
  rw [C10_append_no_dedup_within_items.1 "t" _ [issue7a, issue7b] 7
    (by decide)]
  decide

/-- JavaScript string-or-undefined coercion: value || undefined maps both
null and the empty string to undefined. -/
def orUndefined (s : Option String) : Option String :=
  match s with
  | some v => if v = "" then none else some v
  | none => none

/-- JavaScript string default: value || fallback, where null, undefined and
the empty string all select the fallback. -/
def strOr (s : Option String) (fallback : String) : String :=
  match orUndefined s with
  | some v => v
  | none => fallback

namespace GitHubClient

/-- Label value of the GitHub API: either a bare string or an object with an
optional name field (GitHubLabel of the client source). -/
inductive GitHubLabel where
  | str (s : String)
  | obj (name : Option String)
deriving DecidableEq

/-- Detail of a pull request as returned by octokit.pulls.get, restricted to
the fields fetchPullRequests reads.  user_login models user?.login;
assignees and requested_reviewers are lists of optional logins; the numeric
fields that the source guards with a zero default are Option Nat. -/
structure PRDetail where
  id : Nat
  number : Nat
  title : String
  url : String
  html_url : String
  state : String
  created_at : String
  updated_at : String
  closed_at : Option String
  merged_at : Option String
  user_login : Option String
  draft : Option Bool
  labels : List GitHubLabel
  assignees : Option (List (Option String))
  requested_reviewers : Option (List (Option String))
  commits : Option Nat
  additions : Option Nat
  deletions : Option Nat
  changed_files : Option Nat
deriving DecidableEq

/-- The secondary per-item lookup octokit.pulls.get, keyed by owner, repo
and pull number; an error value models a thrown exception carrying its
message. -/
def DetailLookup : Type := String → String → Nat → Except String PRDetail

/-- Substring test: the JavaScript expression s.includes (sub) holds exactly
when splitting s on sub yields more than one part. -/
def strIncludes (s sub : String) : Bool := (s.splitOn sub).length > 1

/-- Owner and repo derived from a search item: the last two path segments of
item.repository_url.split ("/"). -/
def ownerRepo (item : SearchItem) : String × String :=
  let parts := item.repository_url.splitOn "/"
  let twoLast := parts.drop (parts.length - 2)
  (twoLast.getD 0 "", twoLast.getD 1 "")

/-- The PullRequest record assembled by fetchPullRequests from a search item
and its detail lookup answer. -/
def mkPullRequest (username : String) (item : SearchItem) (d : PRDetail) :
    PullRequest :=
  let owner := (ownerRepo item).1
  let repo := (ownerRepo item).2
  { id := d.id
    number := d.number
    title := d.title
    url := d.url
    htmlUrl := d.html_url
    state := d.state
    createdAt := d.created_at
    updatedAt := d.updated_at
    closedAt := orUndefined d.closed_at
    mergedAt := orUndefined d.merged_at
    repository :=
      { name := repo
        fullName := owner ++ "/" ++ repo
        owner := owner
        url := "https://github.com/" ++ owner ++ "/" ++ repo
        isPrivate := strIncludes item.repository_url "private" }
    author := strOr d.user_login username
    draft := d.draft.getD false
    labels := d.labels.map (fun l =>
      match l with
      | .str s => s
      | .obj name => name.getD "")
    assignees := ((d.assignees.getD []).map (fun a => a.getD "")).filter
      (fun s => !(s == ""))
    reviewers := ((d.requested_reviewers.getD []).map
      (fun r => r.getD "")).filter (fun s => !(s == ""))
    commits := d.commits.getD 0
    additions := d.additions.getD 0
    deletions := d.deletions.getD 0
    changedFiles := d.changed_files.getD 0 }

/-- One step of the per-item loop: a successful lookup appends the enriched
record, a thrown lookup logs one warning (counted) and skips the item. -/
def enrichItems (username : String) (lookup : DetailLookup)
    (items : List SearchItem) : List PullRequest × Nat :=
  items.foldl (fun acc it =>
    match lookup (ownerRepo it).1 (ownerRepo it).2 it.number with
    | .ok d => (acc.1 ++ [mkPullRequest username it d], acc.2)
    | .error _ => (acc.1, acc.2 + 1)) ([], 0)

/-- The records a single item contributes: one enriched record on success,
nothing when its lookup throws. -/
def enrichOk (username : String) (lookup : DetailLookup)
    (it : SearchItem) : List PullRequest :=
  match lookup (ownerRepo it).1 (ownerRepo it).2 it.number with
  | .ok d => [mkPullRequest username it d]
  | .error _ => []

/-- Whether the secondary lookup throws for an item. -/
def lookupFails (lookup : DetailLookup) (it : SearchItem) : Bool :=
  match lookup (ownerRepo it).1 (ownerRepo it).2 it.number with
  | .ok _ => false
  | .error _ => true

/-- GitHubClient.fetchPullRequests: drive paginateSearch, then enrich every
item of every batch in order through the per-item lookup; the per-batch and
per-item loops thread one accumulator, so they equal one pass over the
concatenated batches.  A paginator error propagates wrapped by the outer
catch; detail failures never do.  The second component counts the warnings
logged for skipped items. -/
def fetchPullRequests (ep : Endpoint) (lookup : DetailLookup)
    (username : String) (startAt : Int) :
    Except String (List PullRequest × Nat) :=
  match (paginateSearch ep (fuelFor startAt) startAt).outcome with
  | .raised s => .error ("Failed to fetch pull requests: status "
      ++ toString s)
  | .outOfFuel => .error "fuel exhausted"
  | .done => .ok (enrichItems username lookup
      (paginateSearch ep (fuelFor startAt) startAt).yielded.flatten)

theorem enrichItems_go (username : String) (lookup : DetailLookup) :
    ∀ (items : List SearchItem) (acc : List PullRequest × Nat),
      items.foldl (fun acc it =>
        match lookup (ownerRepo it).1 (ownerRepo it).2 it.number with
        | .ok d => (acc.1 ++ [mkPullRequest username it d], acc.2)
        | .error _ => (acc.1, acc.2 + 1)) acc
      = (acc.1 ++ items.flatMap (enrichOk username lookup),
         acc.2 + items.countP (lookupFails lookup)) := by
  intro items
  induction items with
  | nil => intro acc; simp
  | cons it rest ih =>
      intro acc
      simp only [List.foldl_cons, List.flatMap_cons, List.countP_cons]
      cases hl : lookup (ownerRepo it).1 (ownerRepo it).2 it.number with
      | ok d =>
          rw [ih]
          simp [enrichOk, lookupFails, hl, List.append_assoc]
      | error e =>
          rw [ih]
          simp [enrichOk, lookupFails, hl]
          omega

end GitHubClient

/-- Five search items for the partial-failure scenario, ids and numbers 1
to 5, all older than startDate. -/
def fiveItems : List SearchItem :=
  [1, 2, 3, 4, 5].map (fun n =>
    ⟨n, n, "https://api.github.com/repos/octo/repo",
      startDate - 1000 * ((n : Int))⟩)

/-- Mocked search endpoint holding exactly the five items above. -/
def mock5 : Endpoint := fun cutoff page =>
  .ok (((fiveItems.filter (fun it => it.sortDate < cutoff)).drop
    ((page - 1) * 100)).take 100) false

/-- A successful detail answer for pull number n. -/
def mkDetail (n : Nat) : GitHubClient.PRDetail :=
  ⟨100 + n, n, "title", "u", "hu", "open", "2020-01-01T00:00:00Z",
    "2020-01-02T00:00:00Z", none, none, some "me", some false, [],
    some [], some [], some 1, some 2, some 3, some 4⟩

/-- Detail lookup that throws exactly for item 3 and succeeds elsewhere. -/
def lookup5 : GitHubClient.DetailLookup := fun _owner _repo number =>
  if number = 3 then .error "boom" else .ok (mkDetail number)

/-- C6: partial-failure tolerance of fetchPullRequests.  General part: the
enrichment pass returns exactly the enriched records of the items whose
lookup succeeds, in order, and counts one warning per item whose lookup
throws; it never raises.  Concrete part: for 5 search items where the
lookup throws for item 3, fetchPullRequests returns ok with 4 enriched
records and exactly 1 logged warning. -/
theorem C6_partial_failure_tolerance :
    (∀ (username : String) (lookup : GitHubClient.DetailLookup)
        (items : List SearchItem),
      GitHubClient.enrichItems username lookup items
        = (items.flatMap (GitHubClient.enrichOk username lookup),
           items.countP (GitHubClient.lookupFails lookup))) ∧
    ((GitHubClient.fetchPullRequests mock5 lookup5 "me"
        startDate).toOption.map (fun p => (p.1.length, p.2))
      = some (4, 1)) := by
  constructor
  · intro username lookup items
    simpa using GitHubClient.enrichItems_go username lookup items ([], 0)
  · decide

namespace GitHubActivityTracker

/-- Collaborator calls of fetchAll that the pre-check claim constrains. -/
inductive Effect where
  | fetchPRs
  | fetchIssues
  | fetchReviews
  | storeSave
deriving DecidableEq

/-- GitHubClient.testConnection: one call to the authenticated identity
endpoint; every thrown error or failure response is caught and reported as
false.  The response is ok with the login, or error with a status code. -/
def testConnection (identity : Except Nat String) : Bool :=
  match identity with
  | .ok _ => true
  | .error _ => false

/-- GitHubActivityTracker.fetchAll: test the connection first and abort with
the authentication error before any fetching when it fails; otherwise fetch
the three kinds (their results are passed in as the values the client calls
would produce, the client being modeled separately), assemble the snapshot
with counts, username and the clock value, persist it via full replace into
the storage file, and return it.  The effect list records which collaborator
calls were issued after the pre-check. -/
def fetchAll (identity : Except Nat String) (prs : List PullRequest)
    (iss : List Issue) (revs : List Review) (now username : String)
    (store : JsonStorage.File) :
    Except String ActivityData × JsonStorage.File × List Effect :=
  if testConnection identity then
    let d : ActivityData := ⟨prs, iss, revs,
      ⟨now, username, prs.length, iss.length, revs.length⟩⟩
    (.ok d, JsonStorage.save d store,
      [.fetchPRs, .fetchIssues, .fetchReviews, .storeSave])
  else
    (.error "Failed to authenticate with GitHub", store, [])

end GitHubActivityTracker

/-- C7: when the authenticated-identity pre-check fails, fetchAll surfaces
the authentication failure, performs no fetch of any kind and leaves the
store untouched; when the pre-check succeeds, it fetches all three kinds,
persists the assembled snapshot via full replace and returns it. -/
theorem C7_fetchAll_precheck_gate :
    (∀ (e : Nat) (prs : List PullRequest) (iss : List Issue)
        (revs : List Review) (now username : String)
        (store : JsonStorage.File),
      GitHubActivityTracker.fetchAll (.error e) prs iss revs now username
          store
        = (.error "Failed to authenticate with GitHub", store, [])) ∧
    (∀ (login : String) (prs : List PullRequest) (iss : List Issue)
        (revs : List Review) (now username : String)
        (store : JsonStorage.File),
      GitHubActivityTracker.fetchAll (.ok login) prs iss revs now username
          store
        = (.ok ⟨prs, iss, revs,
            ⟨now, username, prs.length, iss.length, revs.length⟩⟩,
           some ⟨prs, iss, revs,
            ⟨now, username, prs.length, iss.length, revs.length⟩⟩,
           [.fetchPRs, .fetchIssues, .fetchReviews, .storeSave])) :=
  ⟨fun _ _ _ _ _ _ _ => rfl, fun _ _ _ _ _ _ _ => rfl⟩

namespace SqliteStorage

/-- Structured form of the JSON metadata column written for a pull request
row; JSON.stringify and JSON.parse are inverse on this shape, so the column
is modeled by the value it encodes. -/
structure PRMeta where
  htmlUrl : String
  url : String
  reviewers : List String
  commits : Nat
  isPrivate : Bool
  fullName : String
  repoUrl : String
deriving DecidableEq

/-- A row of the pull_requests table; rowId is the INTEGER PRIMARY KEY
AUTOINCREMENT id column; labels and assignees are the JSON arrays the
source serializes into TEXT columns. -/
structure PRRow where
  rowId : Nat
  pr_number : Nat
  github_id : Nat
  title : String
  url : String
  state : String
  repo_owner : String
  repo_name : String
  author : String
  created_at : String
  updated_at : String
  closed_at : Option String
  merged_at : Option String
  draft : Bool
  additions : Nat
  deletions : Nat
  changed_files : Nat
  labels : List String
  assignees : List String
  metadata : PRMeta
deriving DecidableEq

/-- Structured form of the metadata column of an issue row. -/
structure IssueMeta where
  htmlUrl : String
  url : String
  body : Option String
  isPrivate : Bool
  fullName : String
  repoUrl : String
deriving DecidableEq

/-- A row of the issues table. -/
structure IssueRow where
  rowId : Nat
  issue_number : Nat
  github_id : Nat
  title : String
  url : String
  state : String
  repo_owner : String
  repo_name : String
  author : String
  created_at : String
  updated_at : String
  closed_at : Option String
  comments_count : Nat
  labels : List String
  assignees : List String
  metadata : IssueMeta
deriving DecidableEq

/-- Structured form of the metadata column of a review row. -/
structure ReviewMeta where
  pullRequestNumber : Nat
  pullRequestTitle : String
  pullRequestUrl : String
  htmlUrl : String
  repository : Repository
deriving DecidableEq

/-- A row of the reviews table; pr_id is the derived foreign key to the
rowId of the parent pull request. -/
structure ReviewRow where
  rowId : Nat
  github_id : Nat
  pr_id : Nat
  reviewer : String
  state : String
  body : Option String
  submitted_at : String
  metadata : ReviewMeta
deriving DecidableEq

/-- The three tables of the SQLite database relevant to the Store, in rowid
order, together with the AUTOINCREMENT counters. -/
structure Db where
  pull_requests : List PRRow
  issues : List IssueRow
  reviews : List ReviewRow
  nextPrId : Nat
  nextIssueId : Nat
  nextReviewId : Nat
deriving DecidableEq

/-- A freshly initialized database. -/
def emptyDb : Db := ⟨[], [], [], 1, 1, 1⟩

/-- INSERT OR REPLACE into pull_requests: rows conflicting on the UNIQUE
github_id or the UNIQUE (repo_owner, repo_name, pr_number) constraint are
deleted and the new row is inserted with a fresh AUTOINCREMENT id. -/
def insertOrReplacePR (db : Db) (r : PRRow) : Db :=
  let kept := db.pull_requests.filter (fun p =>
    !((p.github_id == r.github_id) ||
      (p.repo_owner == r.repo_owner && p.repo_name == r.repo_name
        && p.pr_number == r.pr_number)))
  let newRow : PRRow := { r with rowId := db.nextPrId }
  { db with pull_requests := kept ++ [newRow], nextPrId := db.nextPrId + 1 }

/-- INSERT OR REPLACE into issues, with the analogous UNIQUE constraints. -/
def insertOrReplaceIssue (db : Db) (r : IssueRow) : Db :=
  let kept := db.issues.filter (fun p =>
    !((p.github_id == r.github_id) ||
      (p.repo_owner == r.repo_owner && p.repo_name == r.repo_name
        && p.issue_number == r.issue_number)))
  let newRow : IssueRow := { r with rowId := db.nextIssueId }
  { db with issues := kept ++ [newRow], nextIssueId := db.nextIssueId + 1 }

/-- INSERT OR REPLACE into reviews; github_id is the only UNIQUE column. -/
def insertOrReplaceReview (db : Db) (r : ReviewRow) : Db :=
  let kept := db.reviews.filter (fun p => !(p.github_id == r.github_id))
  let newRow : ReviewRow := { r with rowId := db.nextReviewId }
  { db with reviews := kept ++ [newRow], nextReviewId := db.nextReviewId + 1 }

/-- Truthiness of an optional string, as the ternary test pr.mergedAt uses
it. -/
def jsTruthy (o : Option String) : Bool := (orUndefined o).isSome

/-- The pull_requests row written for a record by save and append; the url
column receives htmlUrl and the state column stores merged when mergedAt is
set. -/
def prRowOf (pr : PullRequest) : PRRow :=
  { rowId := 0
    pr_number := pr.number
    github_id := pr.id
    title := pr.title
    url := pr.htmlUrl
    state := if jsTruthy pr.mergedAt then "merged" else pr.state
    repo_owner := pr.repository.owner
    repo_name := pr.repository.name
    author := pr.author
    created_at := pr.createdAt
    updated_at := pr.updatedAt
    closed_at := orUndefined pr.closedAt
    merged_at := orUndefined pr.mergedAt
    draft := pr.draft
    additions := pr.additions
    deletions := pr.deletions
    changed_files := pr.changedFiles
    labels := pr.labels
    assignees := pr.assignees
    metadata := ⟨pr.htmlUrl, pr.url, pr.reviewers, pr.commits,
      pr.repository.isPrivate, pr.repository.fullName, pr.repository.url⟩ }

/-- The issues row written for a record by save and append. -/
def issueRowOf (i : Issue) : IssueRow :=
  { rowId := 0
    issue_number := i.number
    github_id := i.id
    title := i.title
    url := i.htmlUrl
    state := i.state
    repo_owner := i.repository.owner
    repo_name := i.repository.name
    author := i.author
    created_at := i.createdAt
    updated_at := i.updatedAt
    closed_at := orUndefined i.closedAt
    comments_count := i.comments
    labels := i.labels
    assignees := i.assignees
    metadata := ⟨i.htmlUrl, i.url, i.body, i.repository.isPrivate,
      i.repository.fullName, i.repository.url⟩ }

/-- The reviews row written for a record once its parent pr_id is known. -/
def reviewRowOf (r : Review) (prId : Nat) : ReviewRow :=
  { rowId := 0
    github_id := r.id
    pr_id := prId
    reviewer := r.author
    state := r.state
    body := orUndefined r.body
    submitted_at := r.submittedAt
    metadata := ⟨r.pullRequestNumber, r.pullRequestTitle, r.pullRequestUrl,
      r.htmlUrl, r.repository⟩ }

/-- SqliteStorage.save: inside one transaction, delete all rows of the three
tables, insert every pull request and issue, then insert every review whose
parent lookup succeeds.  The parent lookup of save is the query
SELECT id FROM pull_requests WHERE github_id = ? LIMIT 1, called with
review.id: the review is silently dropped unless its own id matches the
github_id of some pull request row. -/
def save (data : ActivityData) (db : Db) : Db :=
  let db1 : Db := { db with pull_requests := [], issues := [], reviews := [] }
  let db2 := data.pullRequests.foldl
    (fun d pr => insertOrReplacePR d (prRowOf pr)) db1
  let db3 := data.issues.foldl
    (fun d i => insertOrReplaceIssue d (issueRowOf i)) db2
  data.reviews.foldl (fun d r =>
    match d.pull_requests.find? (fun p => p.github_id == r.id) with
    | some prRow => insertOrReplaceReview d (reviewRowOf r prRow.rowId)
    | none => d) db3

/-- SqliteStorage.append: insert-or-replace the given items; for reviews
the parent lookup is SELECT id FROM pull_requests WHERE pr_number = ? AND
repo_owner = ? AND repo_name = ? LIMIT 1, and a review whose parent is
absent is not inserted. -/
def append (call : JsonStorage.AppendItems) (db : Db) : Db :=
  match call with
  | .pullRequests items =>
      items.foldl (fun d pr => insertOrReplacePR d (prRowOf pr)) db
  | .issues items =>
      items.foldl (fun d i => insertOrReplaceIssue d (issueRowOf i)) db
  | .reviews items =>
      items.foldl (fun d r =>
        match d.pull_requests.find? (fun p =>
          p.pr_number == r.pullRequestNumber
          && p.repo_owner == r.repository.owner
          && p.repo_name == r.repository.name) with
        | some prRow => insertOrReplaceReview d (reviewRowOf r prRow.rowId)
        | none => d) db

/-- Insertion of one element into a list sorted descending by a string key,
used to model ORDER BY key DESC. -/
def insertDesc {α : Type} (key : α → String) (a : α) : List α → List α
  | [] => [a]
  | b :: rest =>
      if key b ≤ key a then a :: b :: rest else b :: insertDesc key a rest

/-- ORDER BY key DESC via insertion sort. -/
def orderByDesc {α : Type} (key : α → String) : List α → List α
  | [] => []
  | a :: rest => insertDesc key a (orderByDesc key rest)

/-- SqliteStorage.load: null when all three tables are empty; otherwise the
snapshot reconstructed from the rows, pull requests and issues ordered by
created_at descending and reviews by submitted_at descending, with the
metadata column supplying the fields the tables do not hold, the username
derived from the first record available, and lastUpdated recomputed from
the clock (passed in as now). -/
def load (now : String) (db : Db) : Option ActivityData :=
  if db.pull_requests.length = 0 && db.issues.length = 0
      && db.reviews.length = 0 then
    none
  else
    let prRows := orderByDesc (fun p => p.created_at) db.pull_requests
    let pullRequests : List PullRequest := prRows.map (fun row =>
      { id := row.github_id
        number := row.pr_number
        title := row.title
        url := strOr (some row.metadata.url) row.url
        htmlUrl := strOr (some row.metadata.htmlUrl) row.url
        state := if row.state == "merged" then "closed" else row.state
        createdAt := row.created_at
        updatedAt := row.updated_at
        closedAt := orUndefined row.closed_at
        mergedAt := orUndefined row.merged_at
        repository :=
          { name := row.repo_name
            fullName := strOr (some row.metadata.fullName)
              (row.repo_owner ++ "/" ++ row.repo_name)
            owner := row.repo_owner
            url := strOr (some row.metadata.repoUrl)
              ("https://github.com/" ++ row.repo_owner ++ "/"
                ++ row.repo_name)
            isPrivate := row.metadata.isPrivate }
        author := row.author
        draft := row.draft
        labels := row.labels
        assignees := row.assignees
        reviewers := row.metadata.reviewers
        commits := row.metadata.commits
        additions := row.additions
        deletions := row.deletions
        changedFiles := row.changed_files })
    let issueRows := orderByDesc (fun i => i.created_at) db.issues
    let issues : List Issue := issueRows.map (fun row =>
      { id := row.github_id
        number := row.issue_number
        title := row.title
        url := strOr (some row.metadata.url) row.url
        htmlUrl := strOr (some row.metadata.htmlUrl) row.url
        state := row.state
        createdAt := row.created_at
        updatedAt := row.updated_at
        closedAt := orUndefined row.closed_at
        repository :=
          { name := row.repo_name
            fullName := strOr (some row.metadata.fullName)
              (row.repo_owner ++ "/" ++ row.repo_name)
            owner := row.repo_owner
            url := strOr (some row.metadata.repoUrl)
              ("https://github.com/" ++ row.repo_owner ++ "/"
                ++ row.repo_name)
            isPrivate := row.metadata.isPrivate }
        author := row.author
        labels := row.labels
        assignees := row.assignees
        comments := row.comments_count
        body := row.metadata.body })
    let reviewRows := orderByDesc (fun r => r.submitted_at) db.reviews
    let reviews : List Review := reviewRows.map (fun row =>
      { id := row.github_id
        pullRequestNumber := row.metadata.pullRequestNumber
        pullRequestTitle := row.metadata.pullRequestTitle
        pullRequestUrl := row.metadata.pullRequestUrl
        state := row.state
        submittedAt := row.submitted_at
        repository := row.metadata.repository
        author := row.reviewer
        body := orUndefined row.body
        htmlUrl := row.metadata.htmlUrl })
    let username :=
      match pullRequests with
      | pr :: _ => pr.author
      | [] =>
        match issues with
        | i :: _ => i.author
        | [] =>
          match reviews with
          | r :: _ => r.author
          | [] => ""
    some ⟨pullRequests, issues, reviews,
      ⟨now, username, pullRequests.length, issues.length, reviews.length⟩⟩

end SqliteStorage

/-- A concrete pull request with GitHub id 100, number 5, in octo/repo. -/
def pr100 : PullRequest :=
  ⟨100, 5, "Add feature", "https://api.github.com/repos/octo/repo/pulls/5",
    "https://github.com/octo/repo/pull/5", "open", "2020-01-01T00:00:00Z",
    "2020-01-02T00:00:00Z", none, none, repo0, "me", false, [], [], [],
    1, 2, 3, 4⟩

/-- A concrete review with GitHub id 200 on pull request number 5 of
octo/repo: its parent is present whenever pr100 is stored. -/
def review200 : Review :=
  ⟨200, 5, "Add feature", "https://github.com/octo/repo/pull/5", "APPROVED",
    "2020-01-03T00:00:00Z", repo0, "me", none,
    "https://github.com/octo/repo/pull/5#pullrequestreview-200"⟩

/-- A concrete review whose parent pull request (number 99) is absent. -/
def review300 : Review :=
  ⟨300, 99, "Ghost", "https://github.com/octo/repo/pull/99", "COMMENTED",
    "2020-01-04T00:00:00Z", repo0, "me", none,
    "https://github.com/octo/repo/pull/99#pullrequestreview-300"⟩

/-- The round-trip snapshot: one pull request and one review whose parent
is that pull request. -/
def dC3 : ActivityData :=
  ⟨[pr100], [], [review200], ⟨"2020-02-01T00:00:00Z", "me", 1, 0, 1⟩⟩

/-- C5: evaluation of the relational review linkage at a concrete review
whose parent is present by PR number and repository owner and name.  First
conjunct: save resolves the parent with WHERE github_id = review.id, finds
no pull request with github_id 200 and silently drops the review, contrary
to the claimed number-plus-owner-plus-name resolution.  Second conjunct:
append does resolve by number, owner and name and inserts the review with
the foreign key of its parent row.  Third conjunct: an orphaned review is
not inserted by append. -/
theorem C5_review_parent_resolution :
    ((SqliteStorage.save dC3 SqliteStorage.emptyDb).reviews = []) ∧
    ((SqliteStorage.append (JsonStorage.AppendItems.reviews [review200])
        (SqliteStorage.append (JsonStorage.AppendItems.pullRequests [pr100])
          SqliteStorage.emptyDb)).reviews.map
        (fun r => (r.github_id, r.pr_id)) = [(200, 1)]) ∧
    ((SqliteStorage.append (JsonStorage.AppendItems.reviews [review300])
        (SqliteStorage.append (JsonStorage.AppendItems.pullRequests [pr100])
          SqliteStorage.emptyDb)).reviews = []) := by
  decide

/-- C3: evaluation of the round-trip at the concrete snapshot dC3.  The
JSON backend round-trips exactly.  The relational backend loses the review
although its parent pull request is stored: save matches review.id against
pull_requests.github_id, finds nothing and drops the row, so load returns
an empty reviews collection while dC3 holds one review; the pull request
itself is reconstructed field for field. -/
theorem C3_roundtrip_at_dC3 :
    (JsonStorage.load (JsonStorage.save dC3 none) = some dC3) ∧
    (Option.map (fun d => d.reviews)
      (SqliteStorage.load "2020-03-01T00:00:00Z"
        (SqliteStorage.save dC3 SqliteStorage.emptyDb)) = some []) ∧
    (Option.map (fun d => d.pullRequests)
      (SqliteStorage.load "2020-03-01T00:00:00Z"
        (SqliteStorage.save dC3 SqliteStorage.emptyDb)) = some [pr100]) ∧
    dC3.reviews.length = 1 := by
  decide

end GithubActivity
